import Mathlib

/-!
A shallow embedding of tinycbor's `src/cbortojson.c` (the CBOR-to-JSON
converter) together with proofs about its rendering policies.

Modelling conventions:
* byte sequences (input strings and the JSON text written to the sink) are
  `List Nat` of byte values; the output sink is the returned list, with every
  write assumed to succeed (I/O failure is an orthogonal early-out in the C
  code);
* the decoding cursor is presented as an already-decoded value tree `CborV`;
  the decoding engine (`cbor.h`, not part of `src/`) is an external
  collaborator, so scalar extraction is modelled by the constructors carrying
  the extracted data;
* fallible code returns `Except CborError`;
* the C library's decimal formatting of finite doubles (`%.17g`, `%.19g`)
  is kept abstract in a `Fmt` record of formatter functions; everything the
  claims quantify over is computed concretely.
-/

namespace CborToJson

/-- Error enumeration mirroring the `CborError` values `cbortojson.c` returns. -/
inductive CborError where
  | ioError
  | unknownType
  | unsupportedType
  | outOfMemory
  | internalError
  | jsonObjectKeyIsAggregate
  | jsonObjectKeyNotString
  deriving DecidableEq

/-- ASCII bytes of a string literal (all output of the converter is ASCII). -/
def ascii (s : String) : List Nat := s.data.map Char.toNat

/-- Semantics of printing a buffer with `fprintf "%s"`: a C string stops at the
first NUL byte. -/
def cstr (l : List Nat) : List Nat := l.takeWhile (fun b => b != 0)

/-- Fuel-indexed decimal-digit rendering (structural recursion so the kernel
can evaluate it inside `decide`). -/
def natDecimalAux : Nat → Nat → List Nat
  | 0, _ => []
  | fuel + 1, n => if n < 10 then [48 + n] else natDecimalAux fuel (n / 10) ++ [48 + n % 10]

/-- ASCII decimal rendering of a natural number, as the `printf` integer
conversions produce it. -/
def natDecimal (n : Nat) : List Nat := natDecimalAux (n + 1) n

/-- Numeric value of a decimal digit string (used to state round-trips). -/
def parseNatDigits (l : List Nat) : Nat := l.foldl (fun a d => a * 10 + (d - 48)) 0

/-- Parse an optional leading minus sign followed by decimal digits. -/
def parseIntText (l : List Nat) : Int :=
  if l.head? = some 45 then -(parseNatDigits (l.drop 1) : Int) else (parseNatDigits l : Int)

/-- Fuel-indexed: how many low-order bits of `n` lie beyond 53 significant
bits, i.e. the smallest `k` with `n / 2 ^ k < 2 ^ 53`. -/
def dropBits : Nat → Nat → Nat
  | 0, _ => 0
  | fuel + 1, n => if n < 2 ^ 53 then 0 else dropBits fuel (n / 2) + 1

/-- Round-to-nearest, ties-to-even, of a natural number to 53 significant bits.
This is the value of the C conversion `(double)val` from `uint64_t` (IEEE-754
binary64, default rounding), and more generally of rounding any integer real
to double. -/
def roundToDouble (n : Nat) : Nat :=
  let k := dropBits n n
  if k = 0 then n
  else
    let q := n / 2 ^ k
    let r := n % 2 ^ k
    if r < 2 ^ (k - 1) then q * 2 ^ k
    else if 2 ^ (k - 1) < r then (q + 1) * 2 ^ k
    else if q % 2 = 0 then q * 2 ^ k else (q + 1) * 2 ^ k

/-- The `CborIntegerType` arm of `value_to_json`:
`num = (double)val; if (negative) num = -num - 1; fprintf(out, "%.0f", num)`.
The conversion to `double` rounds `raw`; `-num - 1` then rounds the exact
integer `num + 1` once more; `%.0f` prints the (integral) double exactly,
with a leading minus sign when it is negative. -/
def value_to_json_int (negative : Bool) (raw : Nat) : List Nat :=
  if negative then 45 :: natDecimal (roundToDouble (roundToDouble raw + 1))
  else natDecimal (roundToDouble raw)

/-- Mathematical value of a CBOR integer: `-raw-1` when the negative flag is
set (the CBOR encoding of negative integers), `raw` otherwise. -/
def cborIntegerValue (negative : Bool) (raw : Nat) : Int :=
  if negative then -((raw : Int) + 1) else (raw : Int)

/-- One alphabet entry, the C `alphabet[i]`; index 64 is the filler character. -/
def b64digit (alphabet : List Nat) (i : Nat) : Nat := alphabet.getD i 0

/-- The encoding loop and tail handling of `generic_dump_base64`: each 3-byte
group becomes 4 alphabet characters; a 1- or 2-byte tail is zero-extended
(`val = in[0] << 16`, optionally `val |= in[1] << 8`) and the unused positions
receive the filler `alphabet[64]`. -/
def base64_payload (alphabet : List Nat) : List Nat → List Nat
  | b0 :: b1 :: b2 :: rest =>
    let val := b0 * 2 ^ 16 + b1 * 2 ^ 8 + b2
    b64digit alphabet (val / 2 ^ 18 % 64) :: b64digit alphabet (val / 2 ^ 12 % 64) ::
      b64digit alphabet (val / 2 ^ 6 % 64) :: b64digit alphabet (val % 64) ::
      base64_payload alphabet rest
  | [b0, b1] =>
    let val := b0 * 2 ^ 16 + b1 * 2 ^ 8
    [b64digit alphabet (val / 2 ^ 18 % 64), b64digit alphabet (val / 2 ^ 12 % 64),
      b64digit alphabet (val / 2 ^ 6 % 64), b64digit alphabet 64]
  | [b0] =>
    let val := b0 * 2 ^ 16
    [b64digit alphabet (val / 2 ^ 18 % 64), b64digit alphabet (val / 2 ^ 12 % 64),
      b64digit alphabet 64, b64digit alphabet 64]
  | [] => []

/-- The buffer `generic_dump_base64` fills: the payload followed by the
terminating NUL it writes after the last produced character. -/
def generic_dump_base64 (alphabet : List Nat) (bs : List Nat) : List Nat :=
  base64_payload alphabet bs ++ [0]

/-- The base64url alphabet of `dump_bytestring_base64url`.  The C array is the
64 characters plus the string literal's terminating NUL, so the 65th entry
(the filler) is `NUL`: base64url output carries no visible padding. -/
def base64url_alphabet : List Nat :=
  ascii "ABCDEFGHIJKLMNOPQRSTUVWXYZabcdefghijklmnopqrstuvwxyz0123456789-_" ++ [0]

/-- `dump_bytestring_base64url`: `generic_dump_base64` at the base64url
alphabet. -/
def dump_bytestring_base64url (bs : List Nat) : List Nat :=
  generic_dump_base64 base64url_alphabet bs

/-- Classification of an IEEE double as the renderer observes it (`isnan`,
`isinf`, or finite with a sign and exact magnitude).  32-bit floats are
promoted to double (`val = f`, exact) before rendering, so both widths share
this classification. -/
inductive FpClass where
  | nan
  | inf (negSign : Bool)
  | finite (negSign : Bool) (mag : ℚ)

/-- Decimal formatting of finite doubles is done by the C library
(`printf "%.17g"` in value position, `"%.19g"` for stringified map keys);
the embedding keeps these external formatters abstract. -/
structure Fmt where
  g17 : Bool → ℚ → List Nat
  g19 : Bool → ℚ → List Nat

/-- A trivial formatter record, used to instantiate closed examples. -/
def fmt0 : Fmt := ⟨fun _ _ => [], fun _ _ => []⟩

/-- A decoded CBOR value as the cursor presents it to the converter. -/
inductive CborV where
  | int (negative : Bool) (raw : Nat)
  | byteString (bs : List Nat)
  | textString (bs : List Nat)
  | array (xs : List CborV)
  | map (ps : List (CborV × CborV))
  | tag (t : Nat) (content : CborV)
  | simple (n : Nat)
  | nullV
  | undefinedV
  | boolean (b : Bool)
  | half (h : Nat)
  | float (c : FpClass)
  | double (c : FpClass)
  | invalid

/-- Whether the value has CBOR type `CborTextStringType`. -/
def CborV.isTextString : CborV → Bool
  | .textString _ => true
  | _ => false

/-- Whether the value is an aggregate (array or map). -/
def CborV.isAggregate : CborV → Bool
  | .array _ => true
  | .map _ => true
  | _ => false

/-- The shared `CborDoubleType`/`CborFloatType` arm of `value_to_json`:
non-finite values print `null`; a finite value whose magnitude, truncated to
`uint64_t`, converts back equal (`(double)ival == fabs(val)`) is printed as an
optional minus sign and the integer's digits; anything else goes to the
abstract `%.17g` formatter.  (The C cast `(uint64_t)fabs(val)` is undefined
for magnitudes at or above 2^64; the model totalises it with the floor.) -/
def renderFp (fmt : Fmt) : FpClass → List Nat
  | .nan => ascii "null"
  | .inf _ => ascii "null"
  | .finite s mag =>
    let ival : Nat := (⌊mag⌋).toNat
    if (roundToDouble ival : ℚ) = mag then
      (if s = true ∧ 0 < mag then [45] else []) ++ natDecimal ival
    else fmt.g17 s mag

/-- The float/double arm of `stringify_map_key`: `null` for NaN and
infinities, otherwise the abstract `%.19g` formatter. -/
def stringify_fp (fmt : Fmt) : FpClass → Except CborError (List Nat)
  | .nan => .ok (ascii "null")
  | .inf _ => .ok (ascii "null")
  | .finite s mag => .ok (fmt.g19 s mag)

/-- `stringify_map_key`.  The signed extraction `cbor_value_get_int64` lives in
the repository's header (outside `src/`); it computes `-(int64_t)raw - 1`
where the `uint64_t` to `int64_t` conversion wraps two's-complement, and is
modelled accordingly.  The `allocOk` dimension (asprintf/strdup failure) is
modelled separately in `stringify_map_key_alloc`. -/
def stringify_map_key (fmt : Fmt) : CborV → Except CborError (List Nat)
  | .array _ => .error .jsonObjectKeyIsAggregate
  | .map _ => .error .jsonObjectKeyIsAggregate
  | .int negative raw =>
    if negative = false then .ok (natDecimal raw)
    else
      let i64 : Int := if raw < 2 ^ 63 then (raw : Int) else (raw : Int) - 2 ^ 64
      let val : Int := -i64 - 1
      if val < 0 then .ok (45 :: natDecimal val.natAbs)
      else .ok (45 :: natDecimal ((-val - 1).emod (2 ^ 64)).toNat)
  | .byteString bs => .ok (dump_bytestring_base64url bs)
  | .textString _ => .error .internalError
  | .tag _ _ => .error .unsupportedType
  | .simple n => .ok (ascii "simple(" ++ natDecimal n ++ ascii ")")
  | .nullV => .ok (ascii "null")
  | .undefinedV => .ok (ascii "undefined")
  | .boolean b => .ok (ascii (if b then "true" else "false"))
  | .float c => stringify_fp fmt c
  | .double c => stringify_fp fmt c
  | .half _ => .error .unsupportedType
  | .invalid => .error .unknownType

/-- The key selection at the top of the `map_to_json` loop: a text-string key
is duplicated verbatim; any other type goes through `stringify_map_key` when
the `CborConvertStringifyMapKeys` flag is set, and is otherwise rejected with
`CborErrorJsonObjectKeyNotString`. -/
def map_key_render (fmt : Fmt) (flags : Bool) (k : CborV) : Except CborError (List Nat) :=
  match k with
  | .textString bs => .ok bs
  | k' => if flags then stringify_map_key fmt k' else .error .jsonObjectKeyNotString

mutual

/-- `value_to_json`: render one value to JSON text (sink writes assumed to
succeed).  Containers recurse through `array_to_json` / `map_to_json`. -/
def value_to_json (fmt : Fmt) (flags : Bool) : CborV → Except CborError (List Nat)
  | .array xs =>
    match array_to_json fmt flags true xs with
    | .error e => .error e
    | .ok s => .ok ([91] ++ s ++ [93])
  | .map ps =>
    match map_to_json fmt flags true ps with
    | .error e => .error e
    | .ok s => .ok ([123] ++ s ++ [125])
  | .int negative raw => .ok (value_to_json_int negative raw)
  | .byteString bs => .ok ([34] ++ cstr (dump_bytestring_base64url bs) ++ [34])
  | .textString bs => .ok ([34] ++ cstr bs ++ [34])
  | .tag _ _ => .error .unsupportedType
  | .simple n => .ok (ascii "\"simple(" ++ natDecimal n ++ ascii ")\"")
  | .nullV => .ok (ascii "null")
  | .undefinedV => .ok (ascii "\"undefined\"")
  | .boolean b => .ok (ascii (if b then "true" else "false"))
  | .float c => .ok (renderFp fmt c)
  | .double c => .ok (renderFp fmt c)
  | .half _ => .error .unsupportedType
  | .invalid => .error .unknownType
termination_by v => sizeOf v

/-- `array_to_json`: render the elements, a comma before every element except
the first. -/
def array_to_json (fmt : Fmt) (flags : Bool) (first : Bool) :
    List CborV → Except CborError (List Nat)
  | [] => .ok []
  | v :: vs =>
    match value_to_json fmt flags v with
    | .error e => .error e
    | .ok s =>
      match array_to_json fmt flags false vs with
      | .error e => .error e
      | .ok t => .ok ((if first then [] else [44]) ++ s ++ t)
termination_by l => sizeOf l

/-- `map_to_json`: render the pairs; the key buffer is printed with
`fprintf(out, "\x22%s\x22:", key)` (so it is truncated at its first NUL and
wrapped in quotes by the caller), then the value is rendered. -/
def map_to_json (fmt : Fmt) (flags : Bool) (first : Bool) :
    List (CborV × CborV) → Except CborError (List Nat)
  | [] => .ok []
  | (k, v) :: rest =>
    match map_key_render fmt flags k with
    | .error e => .error e
    | .ok key =>
      match value_to_json fmt flags v with
      | .error e => .error e
      | .ok sv =>
        match map_to_json fmt flags false rest with
        | .error e => .error e
        | .ok srest =>
          .ok ((if first then [] else [44]) ++ [34] ++ cstr key ++ [34, 58] ++ sv ++ srest)
termination_by l => sizeOf l

end

/-- `cbor_value_to_json_advance`: the public entry point dispatches on the
current type and renders one value. -/
def cbor_value_to_json_advance (fmt : Fmt) (flags : Bool) (v : CborV) :
    Except CborError (List Nat) :=
  value_to_json fmt flags v

/-- Strip one pair of surrounding JSON quotes, when present.  Used to state
that the map-key stringifier agrees with the value renderer once the value
renderer's own quoting is removed. -/
def stripQuotes (l : List Nat) : List Nat :=
  if l.head? = some 34 ∧ l.getLast? = some 34 ∧ 2 ≤ l.length then (l.drop 1).dropLast else l

/-- The text a stringified map key contributes between the caller's quotes
(`%s` truncates the buffer at its first NUL). -/
def mapKeyText (fmt : Fmt) (k : CborV) : Except CborError (List Nat) :=
  (stringify_map_key fmt k).map cstr

/-- The text the scalar value renderer emits for the same value, with its
surrounding JSON quotes (if any) stripped. -/
def valueTextUnquoted (fmt : Fmt) (flags : Bool) (k : CborV) : Except CborError (List Nat) :=
  (value_to_json fmt flags k).map stripQuotes

/-- Outcome of running a routine with the allocator's result made explicit:
either the C function returns a value or error, or it commits undefined
behaviour (a write through a null pointer). -/
inductive AllocRun (α : Type) where
  | returned (r : Except CborError α)
  | undefinedBehavior

/-- `dump_bytestring_base64url` with the `malloc` outcome explicit: the source
never tests the allocation result; with `buffer == NULL` it still calls
`cbor_value_copy_byte_string(it, buffer + len - n, ...)`, which writes through
the null pointer. -/
def dump_bytestring_base64url_alloc (allocOk : Bool) (bs : List Nat) : AllocRun (List Nat) :=
  if allocOk then .returned (.ok (dump_bytestring_base64url bs))
  else .undefinedBehavior

/-- `stringify_map_key` with the allocation outcome explicit: the scalar arms
fall through to `if (*key == NULL) return CborErrorOutOfMemory`, so a failed
`asprintf`/`strdup` is surfaced; the byte-string arm returns straight out of
`dump_bytestring_base64url`, whose failed `malloc` is never surfaced. -/
def stringify_map_key_alloc (fmt : Fmt) (allocOk : Bool) : CborV → AllocRun (List Nat)
  | .byteString bs => dump_bytestring_base64url_alloc allocOk bs
  | .array _ => .returned (.error .jsonObjectKeyIsAggregate)
  | .map _ => .returned (.error .jsonObjectKeyIsAggregate)
  | .textString _ => .returned (.error .internalError)
  | .tag _ _ => .returned (.error .unsupportedType)
  | .half _ => .returned (.error .unsupportedType)
  | .invalid => .returned (.error .unknownType)
  | k =>
    if allocOk then .returned (stringify_map_key fmt k)
    else .returned (.error .outOfMemory)

/-- The fields of the C `CborValue` relevant to resynchronisation: the byte
position `ptr` plus the rest of the iterator state, abstracted into one
field. -/
structure Cursor where
  ptr : Nat
  extra : Nat
  deriving DecidableEq

/-- The external cursor operations the container arm of `value_to_json` uses:
`cbor_value_enter_container`, the recursive body (`array_to_json` or
`map_to_json`, which leaves the child cursor at the failure point), and
`cbor_value_leave_container`.  Each returns the cursor it produced together
with an optional error. -/
structure ContainerOps where
  enter : Cursor → Cursor × Option CborError
  body : Cursor → Cursor × Option CborError
  leave : Cursor → Cursor → Cursor × Option CborError

/-- The `CborArrayType`/`CborMapType` arm of `value_to_json` with the cursor
state explicit: on a failed `enter` or a failed recursive body the parent
cursor is resynchronised (`it->ptr = recursed.ptr`) before the error is
returned; bracket writes can fail with an I/O error. -/
def value_to_json_container (ops : ContainerOps) (writeOk : Bool) (it : Cursor) :
    Cursor × Option CborError :=
  let r1 := ops.enter it
  match r1.2 with
  | some err => ({ it with ptr := r1.1.ptr }, some err)
  | none =>
    if writeOk = false then (it, some .ioError)
    else
      let r2 := ops.body r1.1
      match r2.2 with
      | some err => ({ it with ptr := r2.1.ptr }, some err)
      | none =>
        if writeOk = false then (it, some .ioError)
        else
          let r3 := ops.leave it r2.1
          (r3.1, r3.2)

/-- A cursor-operation record whose `enter` fails after moving the child
cursor; used to instantiate the resynchronisation property. -/
def opsEnterFails : ContainerOps :=
  { enter := fun c => ({ c with ptr := c.ptr + 5 }, some .unknownType)
    body := fun c => (c, none)
    leave := fun p _ => (p, none) }

/-- A cursor-operation record whose recursive body fails mid-container. -/
def opsBodyFails : ContainerOps :=
  { enter := fun c => ({ c with ptr := c.ptr + 1 }, none)
    body := fun c => ({ c with ptr := c.ptr + 7 }, some .unsupportedType)
    leave := fun p _ => (p, none) }

/-- Every byte emitted by the decimal renderer is an ASCII digit. -/
theorem natDecimalAux_digits : ∀ fuel n d, d ∈ natDecimalAux fuel n → 48 ≤ d ∧ d ≤ 57
  | 0, n, d => by simp [natDecimalAux]
  | fuel + 1, n, d => by
    simp only [natDecimalAux]
    split
    · next h => intro hd; simp at hd; omega
    · next h =>
      intro hd
      rcases List.mem_append.1 hd with h1 | h2
      · exact natDecimalAux_digits fuel (n / 10) d h1
      · simp at h2; omega

theorem natDecimal_digits (n d : Nat) (h : d ∈ natDecimal n) : 48 ≤ d ∧ d ≤ 57 :=
  natDecimalAux_digits (n + 1) n d h

theorem natDecimalAux_ne_nil : ∀ fuel n, n < fuel → natDecimalAux fuel n ≠ []
  | 0, n, h => by omega
  | fuel + 1, n, h => by
    simp only [natDecimalAux]
    split
    · simp
    · simp

theorem natDecimal_ne_nil (n : Nat) : natDecimal n ≠ [] :=
  natDecimalAux_ne_nil (n + 1) n (by omega)

/-- The head of a decimal rendering is a digit, hence never a minus sign,
quote, or NUL. -/
theorem natDecimal_head_digit (n : Nat) :
    ∃ d t, natDecimal n = d :: t ∧ 48 ≤ d ∧ d ≤ 57 := by
  cases hnd : natDecimal n with
  | nil => exact absurd hnd (natDecimal_ne_nil n)
  | cons d t =>
    refine ⟨d, t, rfl, ?_⟩
    have : d ∈ natDecimal n := by rw [hnd]; simp
    exact natDecimal_digits n d this

theorem parse_natDecimalAux : ∀ fuel n acc, n < fuel →
    (natDecimalAux fuel n).foldl (fun a d => a * 10 + (d - 48)) acc =
      acc * 10 ^ (natDecimalAux fuel n).length + n
  | 0, n, acc => by omega
  | fuel + 1, n, acc => by
    intro h
    by_cases h10 : n < 10
    · simp [natDecimalAux, h10]
    · have hdiv : n / 10 < n := Nat.div_lt_self (by omega) (by omega)
      have hrec := parse_natDecimalAux fuel (n / 10) acc (by omega)
      simp only [natDecimalAux, if_neg h10, List.foldl_append, hrec, List.length_append,
        List.length_cons, List.length_nil, List.foldl_cons, List.foldl_nil]
      have hmod := Nat.div_add_mod n 10
      generalize (natDecimalAux fuel (n / 10)).length = L
      have hpow : acc * 10 ^ (L + (0 + 1)) = acc * 10 ^ L * 10 := by ring
      rw [hpow]
      generalize acc * 10 ^ L = A
      omega

/-- Round-trip of the decimal rendering of a natural number. -/
theorem parse_natDecimal (n : Nat) : parseNatDigits (natDecimal n) = n := by
  have h := parse_natDecimalAux (n + 1) n 0 (by omega)
  simpa [parseNatDigits, natDecimal] using h

theorem parseIntText_natDecimal (n : Nat) : parseIntText (natDecimal n) = (n : Int) := by
  obtain ⟨d, t, hdt, hlo, hhi⟩ := natDecimal_head_digit n
  have hhead : (natDecimal n).head? ≠ some 45 := by
    rw [hdt]; simp; omega
  rw [parseIntText, if_neg hhead, parse_natDecimal]

theorem parseIntText_neg_natDecimal (n : Nat) :
    parseIntText (45 :: natDecimal n) = -(n : Int) := by
  rw [parseIntText]
  simp [parse_natDecimal]

theorem dropBits_eq_zero (fuel n : Nat) (h : n < 2 ^ 53) : dropBits fuel n = 0 := by
  cases fuel with
  | zero => rfl
  | succ f => simp only [dropBits, if_pos h]

/-- Naturals up to 2^53 are exactly representable in binary64, so the rounding
is the identity there. -/
theorem roundToDouble_of_le {n : Nat} (h : n ≤ 2 ^ 53) : roundToDouble n = n := by
  rcases Nat.lt_or_ge n (2 ^ 53) with hlt | hge
  · simp [roundToDouble, dropBits_eq_zero n n hlt]
  · have heq : n = 2 ^ 53 := by omega
    subst heq
    decide

/-- A buffer without NUL bytes prints in full under `%s`. -/
theorem cstr_eq_self (l : List Nat) (h : ∀ d ∈ l, d ≠ 0) : cstr l = l := by
  induction l with
  | nil => rfl
  | cons a t ih =>
    have ha : (a != 0) = true := by
      have := h a (by simp)
      simpa using this
    have ht : cstr t = t := ih (fun d hd => h d (by simp [hd]))
    simpa [cstr, List.takeWhile_cons, ha] using ht

/-- A buffer with an embedded NUL prints only its NUL-free prefix under `%s`. -/
theorem cstr_append_zero {pre : List Nat} (post : List Nat) (h : ∀ d ∈ pre, d ≠ 0) :
    cstr (pre ++ 0 :: post) = pre := by
  induction pre with
  | nil => simp [cstr]
  | cons a t ih =>
    have ha : (a != 0) = true := by
      have := h a (by simp)
      simpa using this
    have ht := ih (fun d hd => h d (by simp [hd]))
    simpa [cstr, List.takeWhile_cons, ha] using ht

theorem natDecimal_no_zero (n : Nat) : ∀ d ∈ natDecimal n, d ≠ 0 := by
  intro d hd
  have := natDecimal_digits n d hd
  omega

theorem cstr_natDecimal (n : Nat) : cstr (natDecimal n) = natDecimal n :=
  cstr_eq_self _ (natDecimal_no_zero n)

theorem cstr_neg_natDecimal (m : Nat) :
    cstr (45 :: natDecimal m) = 45 :: natDecimal m := by
  refine cstr_eq_self _ ?_
  intro d hd
  rcases List.mem_cons.1 hd with h1 | h2
  · omega
  · exact natDecimal_no_zero m d h2

theorem stripQuotes_wrap (l : List Nat) : stripQuotes (34 :: (l ++ [34])) = l := by
  have hlast : (34 :: (l ++ [34])).getLast? = some 34 := by
    rw [show (34 :: (l ++ [34])) = (34 :: l) ++ [34] by simp]
    exact List.getLast?_concat _
  simp [stripQuotes, hlast, List.dropLast_concat]

theorem stripQuotes_of_head_ne {l : List Nat} (h : l.head? ≠ some 34) : stripQuotes l = l := by
  simp [stripQuotes, h]

theorem stripQuotes_natDecimal (n : Nat) : stripQuotes (natDecimal n) = natDecimal n := by
  obtain ⟨d, t, hdt, hlo, hhi⟩ := natDecimal_head_digit n
  refine stripQuotes_of_head_ne ?_
  rw [hdt]; simp; omega

theorem stripQuotes_neg_natDecimal (m : Nat) :
    stripQuotes (45 :: natDecimal m) = 45 :: natDecimal m :=
  stripQuotes_of_head_ne (by simp)

/-- The base64 payload always occupies `ceil(n/3) * 4` characters. -/
theorem base64_payload_length (alphabet : List Nat) :
    ∀ bs : List Nat, (base64_payload alphabet bs).length = (bs.length + 2) / 3 * 4
  | [] => by simp [base64_payload]
  | [b0] => by simp [base64_payload]
  | [b0, b1] => by simp [base64_payload]
  | b0 :: b1 :: b2 :: rest => by
    have hrec := base64_payload_length alphabet rest
    simp only [base64_payload, List.length_cons, hrec]
    rw [show rest.length + 1 + 1 + 1 + 2 = rest.length + 2 + 3 by omega,
      Nat.add_div_right _ (by omega)]
    omega

theorem value_to_json_int_true (raw : Nat) :
    value_to_json_int true raw = 45 :: natDecimal (roundToDouble (roundToDouble raw + 1)) := by
  simp [value_to_json_int]

theorem value_to_json_int_false (raw : Nat) :
    value_to_json_int false raw = natDecimal (roundToDouble raw) := by
  simp [value_to_json_int]

/-- For negative-integer keys of magnitude below 2^63 the wrap-around in
`cbor_value_get_int64` is the identity and `stringify_map_key` prints the
exact value `-(raw+1)`. -/
theorem stringify_map_key_neg_small (fmt : Fmt) (raw : Nat) (h63 : raw < 2 ^ 63) :
    stringify_map_key fmt (.int true raw) = .ok (45 :: natDecimal (raw + 1)) := by
  simp only [stringify_map_key]
  rw [if_neg (show ¬(true = false) by simp)]
  rw [if_pos h63]
  rw [if_pos (show -(raw : Int) - 1 < 0 by omega)]
  rw [show (-(raw : Int) - 1).natAbs = raw + 1 by omega]

theorem stringify_map_key_unsigned (fmt : Fmt) (raw : Nat) :
    stringify_map_key fmt (.int false raw) = .ok (natDecimal raw) := by
  simp [stringify_map_key]

/-- The byte-string rendering in value position, in quote-wrapped form. -/
theorem value_byteString_wrap (fmt : Fmt) (flags : Bool) (bs : List Nat) :
    value_to_json fmt flags (.byteString bs) =
      .ok (34 :: (cstr (dump_bytestring_base64url bs) ++ [34])) := by
  simp [value_to_json]

/-- The simple-value rendering in value position, in quote-wrapped form. -/
theorem value_simple_wrap (fmt : Fmt) (flags : Bool) (n : Nat) :
    value_to_json fmt flags (.simple n) =
      .ok (34 :: (ascii "simple(" ++ natDecimal n ++ ascii ")" ++ [34])) := by
  simp only [value_to_json]
  rw [show ascii "\"simple(" = 34 :: ascii "simple(" from rfl,
    show ascii ")\"" = ascii ")" ++ [34] from rfl]
  simp

theorem simple_key_no_zero (n : Nat) :
    ∀ d ∈ ascii "simple(" ++ natDecimal n ++ ascii ")", d ≠ 0 := by
  intro d hd
  rcases List.mem_append.1 hd with h1 | h2
  · rcases List.mem_append.1 h1 with ha | hb
    · have hz : ∀ x ∈ ascii "simple(", x ≠ 0 := by decide
      exact hz d ha
    · exact natDecimal_no_zero n d hb
  · have hz : ∀ x ∈ ascii ")", x ≠ 0 := by decide
    exact hz d h2

theorem mapKey_agree_byteString (fmt : Fmt) (flags : Bool) (bs : List Nat) :
    mapKeyText fmt (.byteString bs) = valueTextUnquoted fmt flags (.byteString bs) := by
  rw [valueTextUnquoted, value_byteString_wrap]
  simp [mapKeyText, stringify_map_key, stripQuotes_wrap, Except.map]

theorem mapKey_agree_simple (fmt : Fmt) (flags : Bool) (n : Nat) :
    mapKeyText fmt (.simple n) = valueTextUnquoted fmt flags (.simple n) := by
  rw [valueTextUnquoted, value_simple_wrap]
  simp only [Except.map, stripQuotes_wrap]
  simp only [mapKeyText, stringify_map_key, Except.map]
  rw [cstr_eq_self _ (simple_key_no_zero n)]

theorem mapKey_agree_null (fmt : Fmt) (flags : Bool) :
    mapKeyText fmt .nullV = valueTextUnquoted fmt flags .nullV := by
  have hv : value_to_json fmt flags .nullV = .ok (ascii "null") := by simp [value_to_json]
  rw [valueTextUnquoted, hv]
  simp only [mapKeyText, stringify_map_key, Except.map]
  exact congrArg Except.ok (by decide)

theorem mapKey_agree_undefined (fmt : Fmt) (flags : Bool) :
    mapKeyText fmt .undefinedV = valueTextUnquoted fmt flags .undefinedV := by
  have hv : value_to_json fmt flags .undefinedV = .ok (ascii "\"undefined\"") := by
    simp [value_to_json]
  rw [valueTextUnquoted, hv]
  simp only [mapKeyText, stringify_map_key, Except.map]
  exact congrArg Except.ok (by decide)

theorem mapKey_agree_boolean (fmt : Fmt) (flags : Bool) (b : Bool) :
    mapKeyText fmt (.boolean b) = valueTextUnquoted fmt flags (.boolean b) := by
  have hv : value_to_json fmt flags (.boolean b) =
      .ok (ascii (if b then "true" else "false")) := by simp [value_to_json]
  rw [valueTextUnquoted, hv]
  simp only [mapKeyText, stringify_map_key, Except.map]
  cases b
  · exact congrArg Except.ok (by decide)
  · exact congrArg Except.ok (by decide)

theorem mapKey_agree_int (fmt : Fmt) (flags : Bool) (negative : Bool) (raw : Nat)
    (h : if negative then raw < 2 ^ 53 else raw ≤ 2 ^ 53) :
    mapKeyText fmt (.int negative raw) = valueTextUnquoted fmt flags (.int negative raw) := by
  have hv : value_to_json fmt flags (.int negative raw) =
      .ok (value_to_json_int negative raw) := by simp [value_to_json]
  rw [valueTextUnquoted, hv]
  cases negative with
  | false =>
    have hr : roundToDouble raw = raw := roundToDouble_of_le (by simpa using h)
    rw [mapKeyText, stringify_map_key_unsigned, value_to_json_int_false, hr]
    simp only [Except.map, cstr_natDecimal, stripQuotes_natDecimal]
  | true =>
    have hlt : raw < 2 ^ 53 := by simpa using h
    have h1 : roundToDouble raw = raw := roundToDouble_of_le (by omega)
    have h2 : roundToDouble (raw + 1) = raw + 1 := roundToDouble_of_le (by omega)
    rw [mapKeyText, stringify_map_key_neg_small fmt raw (by omega),
      value_to_json_int_true, h1, h2]
    simp only [Except.map, cstr_neg_natDecimal, stripQuotes_neg_natDecimal]

/-- C1 (amended): rendering a CBOR integer with `value_to_json` and parsing
the decimal text back is exact for all values of magnitude at most 2^53
(unsigned `raw ≤ 2^53`, negative `raw < 2^53`, value `-raw-1`).  Beyond that
the renderer's conversion of the raw magnitude to an IEEE double may round,
so exactness does not hold in general (see the counterexample at 2^64-1). -/
theorem c1_integer_roundtrip (negative : Bool) (raw : Nat)
    (h : if negative then raw < 2 ^ 53 else raw ≤ 2 ^ 53) :
    parseIntText (value_to_json_int negative raw) = cborIntegerValue negative raw := by
  cases negative with
  | false =>
    have hr : roundToDouble raw = raw := roundToDouble_of_le (by simpa using h)
    simp [value_to_json_int, cborIntegerValue, hr, parseIntText_natDecimal]
  | true =>
    have hlt : raw < 2 ^ 53 := by simpa using h
    have h1 : roundToDouble raw = raw := roundToDouble_of_le (by omega)
    have h2 : roundToDouble (raw + 1) = raw + 1 := roundToDouble_of_le (by omega)
    simp [value_to_json_int, cborIntegerValue, h1, h2, parseIntText_neg_natDecimal]

/-- C1 witness: the round-trip theorem applied at the concrete value -42. -/
theorem c1_integer_roundtrip_witness :
    (if true then 41 < 2 ^ 53 else 41 ≤ 2 ^ 53) ∧
      parseIntText (value_to_json_int true 41) = cborIntegerValue true 41 :=
  ⟨by decide, c1_integer_roundtrip true 41 (by decide)⟩

/-- C1 counterexample: the unsigned value 2^64-1 (explicitly covered by the
claim) does not round-trip: `num = (double)val` rounds it to 2^64, and the
emitted text is `18446744073709551616`. -/
theorem c1_integer_counterexample :
    parseIntText (value_to_json_int false (2 ^ 64 - 1)) ≠ cborIntegerValue false (2 ^ 64 - 1) := by
  decide

/-- C2 (amended): the map-key stringifier agrees with the scalar value
renderer (after stripping the value renderer's surrounding quotes) for
byte-string, simple, null, undefined, boolean and non-finite float/double
keys, and for integer keys of magnitude at most 2^53.  For larger integers
the two renderings differ (the value renderer rounds through a double; see
the counterexample), and finite float/double keys use a different format
precision (`%.19g` vs `%.17g`/integer form), so they are not covered. -/
theorem c2_key_value_agreement (fmt : Fmt) (flags : Bool) (bs : List Nat) (n : Nat)
    (b : Bool) (negative : Bool) (raw : Nat) (s : Bool)
    (h : if negative then raw < 2 ^ 53 else raw ≤ 2 ^ 53) :
    mapKeyText fmt (.byteString bs) = valueTextUnquoted fmt flags (.byteString bs) ∧
    mapKeyText fmt (.simple n) = valueTextUnquoted fmt flags (.simple n) ∧
    mapKeyText fmt .nullV = valueTextUnquoted fmt flags .nullV ∧
    mapKeyText fmt .undefinedV = valueTextUnquoted fmt flags .undefinedV ∧
    mapKeyText fmt (.boolean b) = valueTextUnquoted fmt flags (.boolean b) ∧
    mapKeyText fmt (.int negative raw) = valueTextUnquoted fmt flags (.int negative raw) ∧
    mapKeyText fmt (.float .nan) = valueTextUnquoted fmt flags (.float .nan) ∧
    mapKeyText fmt (.double .nan) = valueTextUnquoted fmt flags (.double .nan) ∧
    mapKeyText fmt (.float (.inf s)) = valueTextUnquoted fmt flags (.float (.inf s)) ∧
    mapKeyText fmt (.double (.inf s)) = valueTextUnquoted fmt flags (.double (.inf s)) := by
  refine ⟨mapKey_agree_byteString fmt flags bs, mapKey_agree_simple fmt flags n,
    mapKey_agree_null fmt flags, mapKey_agree_undefined fmt flags,
    mapKey_agree_boolean fmt flags b, mapKey_agree_int fmt flags negative raw h,
    ?_, ?_, ?_, ?_⟩
  · have hv : value_to_json fmt flags (.float .nan) = .ok (ascii "null") := by
      simp [value_to_json, renderFp]
    rw [valueTextUnquoted, hv]
    simp only [mapKeyText, stringify_map_key, stringify_fp, Except.map]
    exact congrArg Except.ok (by decide)
  · have hv : value_to_json fmt flags (.double .nan) = .ok (ascii "null") := by
      simp [value_to_json, renderFp]
    rw [valueTextUnquoted, hv]
    simp only [mapKeyText, stringify_map_key, stringify_fp, Except.map]
    exact congrArg Except.ok (by decide)
  · have hv : value_to_json fmt flags (.float (.inf s)) = .ok (ascii "null") := by
      simp [value_to_json, renderFp]
    rw [valueTextUnquoted, hv]
    simp only [mapKeyText, stringify_map_key, stringify_fp, Except.map]
    exact congrArg Except.ok (by decide)
  · have hv : value_to_json fmt flags (.double (.inf s)) = .ok (ascii "null") := by
      simp [value_to_json, renderFp]
    rw [valueTextUnquoted, hv]
    simp only [mapKeyText, stringify_map_key, stringify_fp, Except.map]
    exact congrArg Except.ok (by decide)

/-- C2 witness: the agreement theorem applied at concrete keys of each
covered type. -/
theorem c2_key_value_agreement_witness :
    (if false then 42 < 2 ^ 53 else 42 ≤ 2 ^ 53) ∧
      (mapKeyText fmt0 (.byteString [255]) = valueTextUnquoted fmt0 false (.byteString [255]) ∧
        mapKeyText fmt0 (.simple 7) = valueTextUnquoted fmt0 false (.simple 7) ∧
        mapKeyText fmt0 .nullV = valueTextUnquoted fmt0 false .nullV ∧
        mapKeyText fmt0 .undefinedV = valueTextUnquoted fmt0 false .undefinedV ∧
        mapKeyText fmt0 (.boolean true) = valueTextUnquoted fmt0 false (.boolean true) ∧
        mapKeyText fmt0 (.int false 42) = valueTextUnquoted fmt0 false (.int false 42) ∧
        mapKeyText fmt0 (.float .nan) = valueTextUnquoted fmt0 false (.float .nan) ∧
        mapKeyText fmt0 (.double .nan) = valueTextUnquoted fmt0 false (.double .nan) ∧
        mapKeyText fmt0 (.float (.inf true)) = valueTextUnquoted fmt0 false (.float (.inf true)) ∧
        mapKeyText fmt0 (.double (.inf true)) =
          valueTextUnquoted fmt0 false (.double (.inf true))) :=
  ⟨by decide, c2_key_value_agreement fmt0 false [255] 7 true false 42 true (by decide)⟩

/-- C2 counterexample: for the unsigned integer key 2^64-1 the stringifier
prints the exact decimal `18446744073709551615` while the value renderer
prints the double-rounded `18446744073709551616`, so the two renderings do
not agree on that integer. -/
theorem c2_key_value_counterexample :
    mapKeyText fmt0 (.int false (2 ^ 64 - 1)) ≠
      valueTextUnquoted fmt0 false (.int false (2 ^ 64 - 1)) := by
  have hv : valueTextUnquoted fmt0 false (.int false (2 ^ 64 - 1)) =
      .ok (stripQuotes (value_to_json_int false (2 ^ 64 - 1))) := by
    simp [valueTextUnquoted, value_to_json, Except.map]
  rw [hv]
  intro hcontra
  rw [mapKeyText, stringify_map_key_unsigned, Except.map] at hcontra
  have hlists : cstr (natDecimal (2 ^ 64 - 1)) =
      stripQuotes (value_to_json_int false (2 ^ 64 - 1)) :=
    Except.ok.inj hcontra
  revert hlists
  decide

/-- C3 (amended): a map whose current key is an array or a map always fails
to convert, under both settings of the stringify-non-text-keys flag; but only
with the flag set is the error `CborErrorJsonObjectKeyIsAggregate` — with the
flag unset the key is rejected earlier with
`CborErrorJsonObjectKeyNotString`. -/
theorem c3_aggregate_key_always_fails (fmt : Fmt) (first : Bool) (k v : CborV)
    (rest : List (CborV × CborV)) (hk : k.isAggregate = true) :
    map_to_json fmt true first ((k, v) :: rest) = .error .jsonObjectKeyIsAggregate ∧
    map_to_json fmt false first ((k, v) :: rest) = .error .jsonObjectKeyNotString := by
  cases k <;> simp_all [CborV.isAggregate, map_to_json, map_key_render, stringify_map_key]

/-- C3 witness: both failure modes at the concrete key `[]` (an empty array). -/
theorem c3_aggregate_key_always_fails_witness :
    CborV.isAggregate (.array []) = true ∧
      (map_to_json fmt0 true true [(.array [], .nullV)] = .error .jsonObjectKeyIsAggregate ∧
        map_to_json fmt0 false true [(.array [], .nullV)] = .error .jsonObjectKeyNotString) :=
  ⟨by decide, c3_aggregate_key_always_fails fmt0 true (.array []) .nullV [] (by decide)⟩

/-- C3 counterexample: with the stringify flag unset, an aggregate (array)
key produces `CborErrorJsonObjectKeyNotString`, not the aggregate-key error
the claim asserts for both flag settings. -/
theorem c3_aggregate_error_counterexample :
    map_to_json fmt0 false true [(.array [], .nullV)] = .error .jsonObjectKeyNotString ∧
      CborError.jsonObjectKeyNotString ≠ CborError.jsonObjectKeyIsAggregate := by
  constructor
  · simp [map_to_json, map_key_render]
  · decide

/-- C4: with the stringify-non-text-keys flag unset, any non-text-string key
makes `map_to_json` fail with `CborErrorJsonObjectKeyNotString`; with the
flag set, an unsigned integer key `raw` is rendered as the quoted decimal
string (42 yields `"42"`) and conversion proceeds with the pair's value and
the remaining pairs. -/
theorem c4_nontext_key_policy (fmt : Fmt) (first : Bool) (k v : CborV)
    (rest : List (CborV × CborV)) (raw : Nat) (hk : k.isTextString = false) :
    map_to_json fmt false first ((k, v) :: rest) = .error .jsonObjectKeyNotString ∧
    map_to_json fmt true first ((.int false raw, v) :: rest) =
      (value_to_json fmt true v).bind (fun sv =>
        (map_to_json fmt true false rest).map (fun srest =>
          (if first then [] else [44]) ++ [34] ++ natDecimal raw ++ [34, 58] ++ sv ++ srest)) := by
  constructor
  · cases k <;> simp_all [CborV.isTextString, map_to_json, map_key_render]
  · have hkey : map_key_render fmt true (.int false raw) = .ok (natDecimal raw) := by
      simp [map_key_render, stringify_map_key]
    cases hv : value_to_json fmt true v with
    | error e => simp [map_to_json, hkey, hv, Except.bind]
    | ok sv =>
      cases hr : map_to_json fmt true false rest with
      | error e => simp [map_to_json, hkey, hv, hr, Except.bind, Except.map]
      | ok srest =>
        simp [map_to_json, hkey, hv, hr, Except.bind, Except.map, cstr_natDecimal]

/-- C4 witness: the policy applied to the concrete integer key 42 in a
one-pair map. -/
theorem c4_nontext_key_policy_witness :
    CborV.isTextString .nullV = false ∧
      (map_to_json fmt0 false true [(.nullV, .nullV)] = .error .jsonObjectKeyNotString ∧
        map_to_json fmt0 true true [(.int false 42, .nullV)] =
          (value_to_json fmt0 true .nullV).bind (fun sv =>
            (map_to_json fmt0 true false []).map (fun srest =>
              (if true then [] else [44]) ++ [34] ++ natDecimal 42 ++ [34, 58] ++ sv ++ srest))) :=
  ⟨rfl, c4_nontext_key_policy fmt0 true .nullV .nullV [] 42 rfl⟩

/-- C5: in value position, NaN and both infinities of either float width are
rendered as exactly the unquoted literal `null`, with success. -/
theorem c5_nonfinite_null (fmt : Fmt) (flags : Bool) (s : Bool) :
    value_to_json fmt flags (.float .nan) = .ok (ascii "null") ∧
    value_to_json fmt flags (.double .nan) = .ok (ascii "null") ∧
    value_to_json fmt flags (.float (.inf s)) = .ok (ascii "null") ∧
    value_to_json fmt flags (.double (.inf s)) = .ok (ascii "null") := by
  refine ⟨?_, ?_, ?_, ?_⟩ <;> simp [value_to_json, renderFp]

/-- C7: the base64url encoder maps `[0x00, 0x10, 0x83]` to `ABCD` with no
filler characters, maps `[0xff]` to the two payload characters `_w` followed
by two filler characters (the base64url filler being `alphabet[64]`), and for
every input its buffer holds `ceil(n/3) * 4` characters plus the
terminator. -/
theorem c7_base64url :
    base64_payload base64url_alphabet [0, 16, 131] = ascii "ABCD" ∧
    (∀ d ∈ base64_payload base64url_alphabet [0, 16, 131],
      d ≠ b64digit base64url_alphabet 64) ∧
    base64_payload base64url_alphabet [255] =
      ascii "_w" ++ [b64digit base64url_alphabet 64, b64digit base64url_alphabet 64] ∧
    ∀ bs : List Nat,
      (dump_bytestring_base64url bs).length = (bs.length + 2) / 3 * 4 + 1 := by
  refine ⟨by decide, by decide, by decide, fun bs => ?_⟩
  simp [dump_bytestring_base64url, generic_dump_base64, base64_payload_length]

/-- C7 witness: the no-filler conjunct applied at the concrete payload
character `A` (65). -/
theorem c7_base64url_witness :
    65 ∈ base64_payload base64url_alphabet [0, 16, 131] ∧
      65 ≠ b64digit base64url_alphabet 64 :=
  ⟨by decide, c7_base64url.2.1 65 (by decide)⟩

/-- C8 (code bug): with a failed allocation, the base64 dump commits
undefined behaviour (the source never checks the `malloc` result before
writing into the buffer) instead of returning `CborErrorOutOfMemory`; the
scalar stringified-key path does detect the failed allocation and returns
`CborErrorOutOfMemory`. -/
theorem c8_allocation_outcomes (fmt : Fmt) :
    dump_bytestring_base64url_alloc false [255] = .undefinedBehavior ∧
    stringify_map_key_alloc fmt false (.int false 42) = .returned (.error .outOfMemory) ∧
    ∀ bs : List Nat, dump_bytestring_base64url_alloc false bs = .undefinedBehavior :=
  ⟨rfl, rfl, fun _ => rfl⟩

/-- C9: when `cbor_value_enter_container` fails, or when the recursive body
of a container fails, the parent cursor's `ptr` is set to the child cursor's
`ptr` before the error is returned. -/
theorem c9_cursor_resync (ops : ContainerOps) (writeOk : Bool) (it : Cursor) :
    (∀ err, (ops.enter it).2 = some err →
      value_to_json_container ops writeOk it =
        ({ it with ptr := (ops.enter it).1.ptr }, some err)) ∧
    (∀ err, (ops.enter it).2 = none → writeOk = true →
      (ops.body (ops.enter it).1).2 = some err →
      value_to_json_container ops writeOk it =
        ({ it with ptr := (ops.body (ops.enter it).1).1.ptr }, some err)) := by
  constructor
  · intro err he
    simp [value_to_json_container, he]
  · intro err he hw hb
    simp [value_to_json_container, he, hw, hb]

/-- C9 witness: both resynchronisation cases at concrete cursor operations
(`enter` moves the child to offset 5 and fails; `body` moves it to offset 8
and fails). -/
theorem c9_cursor_resync_witness :
    value_to_json_container opsEnterFails true ⟨0, 0⟩ = (⟨5, 0⟩, some .unknownType) ∧
    value_to_json_container opsBodyFails true ⟨0, 0⟩ = (⟨8, 0⟩, some .unsupportedType) := by
  constructor
  · have h := (c9_cursor_resync opsEnterFails true ⟨0, 0⟩).1 .unknownType rfl
    simpa [opsEnterFails] using h
  · have h := (c9_cursor_resync opsBodyFails true ⟨0, 0⟩).2 .unsupportedType rfl rfl rfl
    simpa [opsBodyFails] using h

/-- C10: a text string with an embedded NUL renders as only the bytes before
the first NUL between the quotes, both in value position and as a map key,
while the whole string is still consumed as one value (the following array
elements and map pairs are rendered unaffected). -/
theorem c10_textstring_nul_truncation (fmt : Fmt) (flags first : Bool)
    (pre post : List Nat) (v : CborV) (rest : List (CborV × CborV)) (rl : List CborV)
    (h : ∀ d ∈ pre, d ≠ 0) :
    value_to_json fmt flags (.textString (pre ++ 0 :: post)) = .ok ([34] ++ pre ++ [34]) ∧
    array_to_json fmt flags true (.textString (pre ++ 0 :: post) :: rl) =
      (array_to_json fmt flags false rl).map (fun t => [34] ++ pre ++ [34] ++ t) ∧
    map_to_json fmt flags first ((.textString (pre ++ 0 :: post), v) :: rest) =
      (value_to_json fmt flags v).bind (fun sv =>
        (map_to_json fmt flags false rest).map (fun srest =>
          (if first then [] else [44]) ++ [34] ++ pre ++ [34, 58] ++ sv ++ srest)) := by
  have hc := cstr_append_zero post h
  refine ⟨?_, ?_, ?_⟩
  · simp [value_to_json, hc]
  · cases hr : array_to_json fmt flags false rl with
    | error e => simp [array_to_json, value_to_json, hc, hr, Except.map]
    | ok t => simp [array_to_json, value_to_json, hc, hr, Except.map]
  · have hkey : map_key_render fmt flags (.textString (pre ++ 0 :: post)) =
        .ok (pre ++ 0 :: post) := by simp [map_key_render]
    cases hv : value_to_json fmt flags v with
    | error e => simp [map_to_json, hkey, hv, hc, Except.bind]
    | ok sv =>
      cases hr : map_to_json fmt flags false rest with
      | error e => simp [map_to_json, hkey, hv, hr, hc, Except.bind, Except.map]
      | ok srest => simp [map_to_json, hkey, hv, hr, hc, Except.bind, Except.map]

/-- C10 witness: the truncation at the concrete text string `ab\x00c`. -/
theorem c10_textstring_nul_truncation_witness :
    (∀ d ∈ [97, 98], d ≠ 0) ∧
      value_to_json fmt0 false (.textString ([97, 98] ++ 0 :: [99])) =
        .ok ([34] ++ [97, 98] ++ [34]) :=
  ⟨by decide, (c10_textstring_nul_truncation fmt0 false true [97, 98] [99] .nullV [] []
    (by decide)).1⟩

end CborToJson
